import Mathlib

/-!
Verification of the query-generation-and-safety pipeline of the
ai-database-chat repository (src/src/utils/helpers.py,
src/src/agent/database_agent.py, src/src/agent/sql_generator.py,
src/src/agent/mongo_generator.py, src/src/mcp/mongodb_mcp.py,
src/src/database/mongodb_connector.py, src/src/config.py).

Modelling conventions:
- Python/JSON values are the mutual inductive `JVal` / `JList` / `JObj`
  (dictionaries are ordered association lists with unique keys, matching
  Python dict semantics; JSON numbers are modelled as integers).
- Python exceptions are `PyErr`; fallible code returns `Except PyErr _`.
  The exact text of a Python exception message is abstracted by `pymsg`.
- Machine floats appear only as the literal routing confidences 0.8 / 0.6
  / 0.5, which are exactly representable; they are modelled in `ℚ`.
- LLM calls and database drivers are external collaborators; they enter
  the model as oracle arguments (`Except PyErr String` for an LLM
  response, tool functions for execution dispatch).
-/

/-- Python exceptions that the modelled code can raise. -/
inductive PyErr where
  | attributeError : PyErr
  | typeError : PyErr
  | other (s : String) : PyErr
deriving DecidableEq, Repr

/-- The message text `str(e)` of a Python exception (abstracted). -/
def pymsg : PyErr → String
  | .attributeError => "AttributeError"
  | .typeError => "TypeError"
  | .other s => s

mutual
/-- A Python/JSON value: null, bool, int, str, list, dict. -/
inductive JVal where
  | null : JVal
  | bool (b : Bool) : JVal
  | num (n : Int) : JVal
  | str (s : String) : JVal
  | arr (xs : JList) : JVal
  | obj (fs : JObj) : JVal
deriving DecidableEq, Repr
/-- A Python list of `JVal`s. -/
inductive JList where
  | nil : JList
  | cons (hd : JVal) (tl : JList) : JList
deriving DecidableEq, Repr
/-- A Python dict: ordered association list, keys unique by construction. -/
inductive JObj where
  | nil : JObj
  | cons (k : String) (v : JVal) (tl : JObj) : JObj
deriving DecidableEq, Repr
end

/-- Build a `JList` from a Lean list. -/
def JList.ofL : List JVal → JList
  | [] => .nil
  | x :: xs => .cons x (JList.ofL xs)

/-- Back to a Lean list. -/
def JList.toL : JList → List JVal
  | .nil => []
  | .cons x xs => x :: xs.toL

/-- Build a `JObj` from a Lean association list. -/
def JObj.ofL : List (String × JVal) → JObj
  | [] => .nil
  | (k, v) :: xs => .cons k v (JObj.ofL xs)

/-- First value stored under key `k` (Python `d[k]` / `d.get(k)`). -/
def JObj.lookup : JObj → String → Option JVal
  | .nil, _ => none
  | .cons k v t, k' => if k' = k then some v else t.lookup k'

/-- Python `d.get(k, default)`: the stored value if the key is present
(even when that value is `None`), else the default. -/
def JObj.getD (o : JObj) (k : String) (d : JVal) : JVal :=
  match o.lookup k with
  | some v => v
  | none => d

/-- Python `d[k] = v`: update in place if present, else append. -/
def JObj.set : JObj → String → JVal → JObj
  | .nil, k, v => .cons k v .nil
  | .cons k0 v0 t, k, v =>
      if k = k0 then .cons k0 v t else .cons k0 v0 (t.set k v)

/-- Python truthiness of a value. -/
def truthy : JVal → Bool
  | .null => false
  | .bool b => b
  | .num n => n != 0
  | .str s => s ≠ ""
  | .arr .nil => false
  | .arr _ => true
  | .obj .nil => false
  | .obj _ => true

/-- Python `str(v)` for the scalar values the pipeline interpolates into
messages (containers are abstracted by a constant tag). -/
def pyToStr : JVal → String
  | .null => "None"
  | .bool true => "True"
  | .bool false => "False"
  | .num n => toString n
  | .str s => s
  | .arr _ => "<list>"
  | .obj _ => "<dict>"

/-- Python `s.upper()` (ASCII, as exercised by the pipeline). -/
def pyUpper (s : String) : String := ⟨s.toList.map Char.toUpper⟩

/-- Python `s.lower()` (ASCII, as exercised by the pipeline). -/
def pyLower (s : String) : String := ⟨s.toList.map Char.toLower⟩

/-- Contiguous-sublist test (executable form of `List.IsInfix`). -/
def isSubList (needle : List Char) : List Char → Bool
  | [] => needle.isEmpty
  | c :: t => needle.isPrefixOf (c :: t) || isSubList needle t

/-- Python substring test `needle in hay`. -/
def pyIn (needle hay : String) : Bool :=
  isSubList needle.toList hay.toList

/-- `isSubList` decides `List.IsInfix`. -/
theorem isSubList_iff (n : List Char) : ∀ h : List Char,
    isSubList n h = true ↔ n <:+: h := by
  intro h
  induction h with
  | nil =>
      simp [isSubList, List.isEmpty_iff, List.infix_nil]
  | cons c t ih =>
      simp only [isSubList, Bool.or_eq_true, List.isPrefixOf_iff_prefix, ih,
        List.infix_cons_iff]

/-- `pyIn` decides substring containment. -/
theorem pyIn_iff (n h : String) :
    pyIn n h = true ↔ n.toList <:+: h.toList := by
  simp [pyIn, isSubList_iff]

/-- Python `s.count(';')`. -/
def countSemi (s : String) : Nat := s.toList.count ';'

/-- Python whitespace (the characters `str.strip` removes). -/
def pySpace (c : Char) : Bool :=
  c = ' ' ∨ c = '\t' ∨ c = '\n' ∨ c = '\r' ∨ c = '\x0b' ∨ c = '\x0c'

/-- Python `s.strip()`. -/
def pyStrip (s : String) : String :=
  ⟨(s.toList.dropWhile pySpace).reverse.dropWhile pySpace |>.reverse⟩

/-- A `{safe, reason}` verdict as returned by both validators
(src/src/utils/helpers.py). -/
structure Verdict where
  safe : Bool
  reason : Option String
deriving DecidableEq, Repr

/-- `Settings.blocked_sql_keywords` (src/src/config.py lines 64-68). -/
def blocked_sql_keywords : List String :=
  ["DROP", "DELETE", "TRUNCATE", "UPDATE", "INSERT",
   "ALTER", "CREATE", "GRANT", "REVOKE", "EXEC",
   "EXECUTE", "MERGE", "CALL"]

/-- `Settings.max_query_rows` default (src/src/config.py line 60). -/
def max_query_rows : Int := 1000

/-- `validate_sql_safety` (src/src/utils/helpers.py lines 65-83):
first keyword whose uppercase form occurs in the uppercased SQL rejects;
otherwise more than one `;` rejects; otherwise safe. -/
def validate_sql_safety (sql : String) (blocked_keywords : List String) : Verdict :=
  match blocked_keywords.find? (fun kw => pyIn (pyUpper kw) (pyUpper sql)) with
  | some kw => ⟨false, some ("Query contains blocked keyword: " ++ kw)⟩
  | none =>
      if countSemi sql > 1 then
        ⟨false, some "Multiple SQL statements not allowed"⟩
      else
        ⟨true, none⟩

/-- The generator-side dangerous operator list
(src/src/utils/helpers.py line 89). -/
def dangerous_operators : List String := ["$where", "$function"]

mutual
/-- `check_dict` inside `validate_mongo_safety`
(src/src/utils/helpers.py lines 91-105): checks each key, then descends
into dict values and into dict items of list values. -/
def check_dict (ops : List String) : JObj → Option String
  | .nil => none
  | .cons k v t =>
      if k ∈ ops then some ("Query contains dangerous operator: " ++ k)
      else
        match check_val ops v with
        | some r => some r
        | none => check_dict ops t
/-- Value case of the walk: descend into dicts and lists, skip scalars. -/
def check_val (ops : List String) : JVal → Option String
  | .obj o => check_dict ops o
  | .arr l => check_list ops l
  | _ => none
/-- List case of the walk: only dict items are inspected
(`if isinstance(item, dict)`); all other items — including nested
lists — are skipped. -/
def check_list (ops : List String) : JList → Option String
  | .nil => none
  | .cons h t =>
      match h with
      | .obj o =>
          match check_dict ops o with
          | some r => some r
          | none => check_list ops t
      | _ => check_list ops t
end

/-- `validate_mongo_safety` (src/src/utils/helpers.py lines 86-111).
The Python parameter is annotated `Dict`; calling it on a non-mapping
raises `AttributeError` at `d.items()`, modelled as `Except.error`. -/
def validate_mongo_safety (query : JVal) : Except PyErr Verdict :=
  match query with
  | .obj o =>
      match check_dict dangerous_operators o with
      | some reason => .ok ⟨false, some reason⟩
      | none => .ok ⟨true, none⟩
  | _ => .error .attributeError

/-- The execution-dispatch-side dangerous operator list
(src/src/mcp/mongodb_mcp.py line 251). -/
def dangerous_operators_mcp : List String := ["$where", "$function", "$accumulator"]

mutual
/-- `check_dict` inside `MongoDBMCPClient._is_safe_query`
(src/src/mcp/mongodb_mcp.py lines 253-265): same walk, `Bool` result,
three-entry denylist. -/
def mcp_check_dict : JObj → Bool
  | .nil => true
  | .cons k v t =>
      if k ∈ dangerous_operators_mcp then false
      else mcp_check_val v && mcp_check_dict t
/-- Value case of the dispatch-side walk. -/
def mcp_check_val : JVal → Bool
  | .obj o => mcp_check_dict o
  | .arr l => mcp_check_list l
  | _ => true
/-- List case of the dispatch-side walk (dict items only). -/
def mcp_check_list : JList → Bool
  | .nil => true
  | .cons h t =>
      match h with
      | .obj o => mcp_check_dict o && mcp_check_list t
      | _ => mcp_check_list t
end

/-- `MongoDBMCPClient._is_safe_query` (src/src/mcp/mongodb_mcp.py lines
249-267); non-mapping input raises at `d.items()`. -/
def is_safe_query (query : JVal) : Except PyErr Bool :=
  match query with
  | .obj o => .ok (mcp_check_dict o)
  | _ => .error .attributeError

/-- `dict.erase`, used to model Python dict duplicate-key handling while
decoding JSON (the last duplicate's value wins, at the first position). -/
def JObj.erase : JObj → String → JObj
  | .nil, _ => .nil
  | .cons k v t, k' => if k' = k then t.erase k' else .cons k v (t.erase k')

/-- Insert a decoded member ahead of the already-decoded rest of the
object, with Python dict duplicate-key semantics. -/
def jPairCons (k : String) (v : JVal) (o : JObj) : JObj :=
  match o.lookup k with
  | some v' => .cons k v' (o.erase k)
  | none => .cons k v o

/-- The `{` character (written by code so that braces never appear in
string literals). -/
def lbraceC : Char := Char.ofNat 123

/-- The `}` character. -/
def rbraceC : Char := Char.ofNat 125

/-- JSON insignificant whitespace, as skipped by `json.loads`. -/
def jsonWs (c : Char) : Bool :=
  c = ' ' ∨ c = '\t' ∨ c = '\n' ∨ c = '\r'

/-- Skip JSON whitespace. -/
def skipWs : List Char → List Char
  | [] => []
  | c :: cs => if jsonWs c then skipWs cs else c :: cs

/-- JSON string escape codes (the `\uXXXX` form is not modelled; inputs
using it fall outside the modelled decoder's domain). -/
def jEscChar : Char → Option Char
  | '"' => some '"'
  | '\\' => some '\\'
  | '/' => some '/'
  | 'b' => some '\x08'
  | 'f' => some '\x0c'
  | 'n' => some '\n'
  | 'r' => some '\r'
  | 't' => some '\t'
  | _ => none

/-- Decode a JSON string body (after the opening quote); returns the
content and the remaining input after the closing quote. -/
def parseJStr : List Char → Option (List Char × List Char)
  | [] => none
  | c :: cs =>
    if c = '"' then some ([], cs)
    else if c = '\\' then
      match cs with
      | [] => none
      | e :: cs' =>
        match jEscChar e with
        | none => none
        | some ch =>
          match parseJStr cs' with
          | none => none
          | some (s, r) => some (ch :: s, r)
    else
      match parseJStr cs with
      | none => none
      | some (s, r) => some (c :: s, r)

/-- Take a maximal run of decimal digits. -/
def takeDigits : List Char → (List Char × List Char)
  | [] => ([], [])
  | c :: cs =>
    if c.isDigit then
      let (d, r) := takeDigits cs
      (c :: d, r)
    else ([], c :: cs)

/-- Decimal digits to a natural number. -/
def digitsToNat (ds : List Char) : Nat :=
  ds.foldl (fun a c => a * 10 + (c.toNat - 48)) 0

/-- Decode a JSON integer numeral (fractions/exponents are outside the
modelled decoder's domain; a stray `.`/`e` makes the overall decode fail). -/
def parseJNum : List Char → Option (Int × List Char)
  | '-' :: cs =>
      match takeDigits cs with
      | ([], _) => none
      | (ds, r) => some (-(digitsToNat ds : Int), r)
  | cs =>
      match takeDigits cs with
      | ([], _) => none
      | (ds, r) => some ((digitsToNat ds : Int), r)

mutual
/-- Fuel-indexed JSON value decoder (the model of `json.loads`'s
recursive descent; fuel bounds nesting and never runs out when called
through `json_loads`). -/
def parseJVal : Nat → List Char → Option (JVal × List Char)
  | 0, _ => none
  | fuel + 1, cs =>
    match skipWs cs with
    | [] => none
    | c :: rest =>
      if c = lbraceC then
        match skipWs rest with
        | [] => none
        | c' :: rest' =>
          if c' = rbraceC then some (.obj .nil, rest')
          else
            match parseJPairs fuel (c' :: rest') with
            | some (o, r) => some (.obj o, r)
            | none => none
      else if c = '[' then
        match skipWs rest with
        | ']' :: rest' => some (.arr .nil, rest')
        | cs' =>
          match parseJItems fuel cs' with
          | some (l, r) => some (.arr l, r)
          | none => none
      else if c = '"' then
        match parseJStr rest with
        | some (s, r) => some (.str ⟨s⟩, r)
        | none => none
      else if c = 't' then
        match rest with
        | 'r' :: 'u' :: 'e' :: r => some (.bool true, r)
        | _ => none
      else if c = 'f' then
        match rest with
        | 'a' :: 'l' :: 's' :: 'e' :: r => some (.bool false, r)
        | _ => none
      else if c = 'n' then
        match rest with
        | 'u' :: 'l' :: 'l' :: r => some (.null, r)
        | _ => none
      else
        match parseJNum (c :: rest) with
        | some (n, r) => some (.num n, r)
        | none => none
/-- Decode the members of a JSON object (positioned at a key). -/
def parseJPairs : Nat → List Char → Option (JObj × List Char)
  | 0, _ => none
  | fuel + 1, cs =>
    match skipWs cs with
    | '"' :: rest =>
      match parseJStr rest with
      | none => none
      | some (k, r1) =>
        match skipWs r1 with
        | ':' :: r2 =>
          match parseJVal fuel r2 with
          | none => none
          | some (v, r3) =>
            match skipWs r3 with
            | ',' :: r4 =>
              match parseJPairs fuel r4 with
              | none => none
              | some (o, r5) => some (jPairCons ⟨k⟩ v o, r5)
            | c5 :: r5 =>
              if c5 = rbraceC then some (JObj.cons ⟨k⟩ v .nil, r5) else none
            | [] => none
        | _ => none
    | _ => none
/-- Decode the items of a JSON array (positioned at a value). -/
def parseJItems : Nat → List Char → Option (JList × List Char)
  | 0, _ => none
  | fuel + 1, cs =>
    match parseJVal fuel cs with
    | none => none
    | some (v, r) =>
      match skipWs r with
      | ',' :: r2 =>
        match parseJItems fuel r2 with
        | none => none
        | some (l, r3) => some (.cons v l, r3)
      | ']' :: r2 => some (.cons v .nil, r2)
      | _ => none
end

/-- The model of Python `json.loads`: decode one value, then require
only whitespace to remain. -/
def json_loads (s : String) : Option JVal :=
  let cs := s.toList
  match parseJVal (cs.length + 1) cs with
  | some (v, rest) => if (skipWs rest).isEmpty then some v else none
  | none => none

/-- Python `s.split("\n")`. -/
def splitNl : List Char → List (List Char)
  | [] => [[]]
  | c :: cs =>
      let r := splitNl cs
      if c = '\n' then [] :: r
      else
        match r with
        | [] => [[c]]
        | h :: t => (c :: h) :: t

/-- Python `"\n".join(lines)`. -/
def joinNl : List (List Char) → List Char
  | [] => []
  | [l] => l
  | l :: ls => l ++ '\n' :: joinNl ls

/-- The response clean-up shared by `SQLGenerator._parse_response`
(src/src/agent/sql_generator.py lines 134-140) and
`MongoQueryGenerator._parse_response` (src/src/agent/mongo_generator.py
lines 155-161): strip, then if the text starts with a fence drop its
first and last lines (`lines[1:-1]`), then drop a leading `json` tag. -/
def clean_response (response : String) : String :=
  let response := (pyStrip response).toList
  if "```".toList.isPrefixOf response then
    let lines := splitNl response
    let response := joinNl (lines.drop 1).dropLast
    if "json".toList.isPrefixOf response then ⟨response.drop 4⟩ else ⟨response⟩
  else ⟨response⟩

/-- Everything up to and including the first `;` (the non-greedy
`.*?(?:;|$)` part of the fallback pattern). -/
def takeThroughSemi : List Char → List Char
  | [] => []
  | c :: cs => if c = ';' then [c] else c :: takeThroughSemi cs

/-- The fallback `re.search(r'SELECT.*?(?:;|$)', …, IGNORECASE | DOTALL)`
of `SQLGenerator._parse_response` (line 155): the leftmost
case-insensitive `SELECT` through the first `;` or the end of the text. -/
def extract_select : List Char → Option String
  | [] => none
  | c :: cs =>
      if ((c :: cs).take 6).map Char.toUpper = "SELECT".toList then
        some ⟨takeThroughSemi (c :: cs)⟩
      else extract_select cs

/-- `SQLGenerator._parse_response` (src/src/agent/sql_generator.py lines
131-168). On decoded objects: a truthy `sql` is stripped and tagged
`success=True`, otherwise `success=False`; non-object decodes raise at
`result.get` (`AttributeError`); a truthy non-string `sql` raises at
`.strip()`; decode failure falls back to `SELECT …` extraction. -/
def sql_parse_response (response : String) : Except PyErr JObj :=
  match json_loads (clean_response response) with
  | some (.obj result) =>
      if truthy (result.getD "sql" .null) then
        match result.getD "sql" .null with
        | .str s =>
            .ok ((result.set "sql" (.str (pyStrip s))).set "success" (.bool true))
        | _ => .error .attributeError
      else .ok (result.set "success" (.bool false))
  | some _ => .error .attributeError
  | none =>
      match extract_select (clean_response response).toList with
      | some sql =>
          .ok (JObj.ofL [("success", .bool true), ("sql", .str (pyStrip sql)),
                         ("explanation", .str "Extracted from response"),
                         ("tables_used", .arr .nil)])
      | none =>
          .ok (JObj.ofL [("success", .bool false),
                         ("error", .str "Failed to parse response: JSONDecodeError"),
                         ("sql", .null)])

/-- `MongoQueryGenerator._parse_response` (src/src/agent/mongo_generator.py
lines 152-176): a truthy `query_type` tags `success=True`, else
`success=False`; no regex fallback on decode failure. -/
def mongo_parse_response (response : String) : Except PyErr JObj :=
  match json_loads (clean_response response) with
  | some (.obj result) =>
      if truthy (result.getD "query_type" .null) then
        .ok (result.set "success" (.bool true))
      else .ok (result.set "success" (.bool false))
  | some _ => .error .attributeError
  | none => .ok (JObj.ofL [("success", .bool false),
                           ("error", .str "Failed to parse response: JSONDecodeError")])

/-- The failure dict `{"success": False, "error": reason, "sql": None}`
built by `SQLGenerator.generate` on a safety rejection (lines 61-65). -/
def sql_safety_fail (reason : Option String) : JObj :=
  JObj.ofL [("success", .bool false),
            ("error", match reason with | some r => .str r | none => .null),
            ("sql", .null)]

/-- The body of `SQLGenerator.generate`'s `try` block after the LLM call
(src/src/agent/sql_generator.py lines 43-70): parse, then downgrade a
successful result whose SQL fails `validate_sql_safety`. -/
def sql_generate_core (text : String) : Except PyErr JObj := do
  let result ← sql_parse_response text
  if truthy (result.getD "success" .null) && truthy (result.getD "sql" .null) then
    match result.getD "sql" .null with
    | .str s =>
        let safety := validate_sql_safety s blocked_sql_keywords
        if !safety.safe then
          pure (sql_safety_fail safety.reason)
        else pure result
    | _ => .error .typeError
  else pure result

/-- `SQLGenerator.generate` (src/src/agent/sql_generator.py lines 23-79)
with the LLM call abstracted as an oracle: any exception from the call
or the body is caught and returned as a failure dict. -/
def sql_generate (llm : Except PyErr String) : JObj :=
  match (do sql_generate_core (← llm) : Except PyErr JObj) with
  | .ok r => r
  | .error e => JObj.ofL [("success", .bool false), ("error", .str (pymsg e)),
                          ("sql", .null)]

/-- The failure dict `{"success": False, "error": reason}` built by
`MongoQueryGenerator.generate` on a safety rejection (lines 63-66, 70-74). -/
def mongo_safety_fail (reason : Option String) : JObj :=
  JObj.ofL [("success", .bool false),
            ("error", match reason with | some r => .str r | none => .null)]

/-- The per-stage loop of `MongoQueryGenerator.generate` (lines 59-67):
the first unsafe stage replaces the result and breaks. -/
def mongo_stage_loop : JList → JObj → Except PyErr JObj
  | .nil, result => .ok result
  | .cons stage rest, result => do
      let safety ← validate_mongo_safety stage
      if !safety.safe then
        pure (mongo_safety_fail safety.reason)
      else mongo_stage_loop rest result

/-- The body of `MongoQueryGenerator.generate`'s `try` block after the
LLM call (src/src/agent/mongo_generator.py lines 42-79): parse, then
validate `result.get("filter", result.get("pipeline", {}))` — a list is
checked stage by stage, anything else is checked as one mapping. -/
def mongo_generate_core (text : String) : Except PyErr JObj := do
  let result ← mongo_parse_response text
  if truthy (result.getD "success" .null) then
    let query_to_check :=
      match result.lookup "filter" with
      | some v => v
      | none =>
          match result.lookup "pipeline" with
          | some v => v
          | none => .obj .nil
    match query_to_check with
    | .arr stages => mongo_stage_loop stages result
    | q => do
        let safety ← validate_mongo_safety q
        if !safety.safe then
          pure (mongo_safety_fail safety.reason)
        else pure result
  else pure result

/-- `MongoQueryGenerator.generate` (src/src/agent/mongo_generator.py
lines 22-87) with the LLM call abstracted as an oracle. -/
def mongo_generate (llm : Except PyErr String) : JObj :=
  match (do mongo_generate_core (← llm) : Except PyErr JObj) with
  | .ok r => r
  | .error e => JObj.ofL [("success", .bool false), ("error", .str (pymsg e))]

/-- The MongoDB indicator keywords of `DatabaseAgent._fast_route`
(src/src/agent/database_agent.py lines 163-167). -/
def mongo_keywords : List String :=
  ["event", "events", "log", "logs", "session", "sessions",
   "click", "clicks", "page view", "pageview", "tracking",
   "analytics", "user activity", "behavior", "metric", "metrics"]

/-- The PostgreSQL indicator keywords of `DatabaseAgent._fast_route`
(src/src/agent/database_agent.py lines 170-175). -/
def postgres_keywords : List String :=
  ["customer", "customers", "order", "orders", "product", "products",
   "sale", "sales", "revenue", "purchase", "purchases", "buyer",
   "inventory", "price", "quantity", "item", "items", "spent",
   "top-selling", "best selling", "order_items"]

/-- A routing decision `{database, confidence}`. -/
structure RouteDecision where
  database : String
  confidence : ℚ
deriving DecidableEq, Repr

/-- `sum(1 for kw in mongo_keywords if kw in query_lower)` (line 178). -/
def mongo_score (query_lower : String) : Nat :=
  (mongo_keywords.filter (fun kw => pyIn kw query_lower)).length

/-- `sum(1 for kw in postgres_keywords if kw in query_lower)` (line 179). -/
def postgres_score (query_lower : String) : Nat :=
  (postgres_keywords.filter (fun kw => pyIn kw query_lower)).length

/-- `DatabaseAgent._fast_route` (src/src/agent/database_agent.py lines
158-195): keyword scores then the five-branch availability cascade. -/
def fast_route (user_query : String) (available_databases : List String) :
    RouteDecision :=
  let query_lower := pyLower user_query
  let mscore := mongo_score query_lower
  let pscore := postgres_score query_lower
  let has_postgres : Bool := "postgresql" ∈ available_databases
  let has_mongo : Bool := "mongodb" ∈ available_databases
  if mscore > pscore && has_mongo then ⟨"mongodb", 0.8⟩
  else if pscore > 0 && has_postgres then ⟨"postgresql", 0.8⟩
  else if has_postgres then ⟨"postgresql", 0.6⟩
  else if has_mongo then ⟨"mongodb", 0.6⟩
  else ⟨"postgresql", 0.5⟩

/-- `limit = limit or settings.max_query_rows` in
`MongoDBConnector.execute_aggregate` (line 182): `None` and the falsy
`0` both fall back to the configured maximum. -/
def aggregate_effective_limit (limit : Option Int) : Int :=
  match limit with
  | some l => if l = 0 then max_query_rows else l
  | none => max_query_rows

/-- The `$limit`-appending step of `MongoDBConnector.execute_aggregate`
(src/src/database/mongodb_connector.py lines 182-187): append a
`{"$limit": limit}` stage exactly when no stage has a top-level
`$limit` key; the Python `pipeline.append` mutates the caller's list,
modelled by returning the pipeline the driver actually receives. -/
def aggregate_effective_pipeline (pipeline : List JObj) (limit : Option Int) :
    List JObj :=
  let lim := aggregate_effective_limit limit
  let has_limit := pipeline.any (fun stage => (stage.lookup "$limit").isSome)
  if has_limit then pipeline
  else pipeline ++ [JObj.cons "$limit" (.num lim) .nil]

/-- One conversation-history entry `{role, content}`. -/
structure HistMsg where
  role : String
  content : String
deriving DecidableEq, Repr

/-- A generator oracle: `generate(user_query, conversation_history)`.
(`Except.error` models an exception escaping the generator.) -/
def GenFun : Type := String → List HistMsg → Except PyErr JObj

/-- An execution-tool oracle: `mcp.execute_tool(tool_name, arguments)`. -/
def ToolFun : Type := String → JObj → Except PyErr JObj

/-- The per-request result dict assembled by `DatabaseAgent.process_query`
(src/src/agent/database_agent.py lines 80-90); the presentation-only
`dataframe`/`visualization` entries are omitted. `row_count` is `none`
while the key is absent (it is only written on success, line 129). -/
structure QueryResultM where
  success : Bool
  query : String
  database : JVal
  generated_query : JVal
  data : JVal
  row_count : Option JVal
  explanation : JVal
  error : JVal
deriving DecidableEq, Repr

/-- The initial result dict of `process_query`. -/
def initResult (user_query : String) : QueryResultM :=
  ⟨false, user_query, .null, .null, .arr .nil, none, .null, .null⟩

/-- `DatabaseAgent._execute_query` (src/src/agent/database_agent.py lines
211-243), returning the tool outcome together with the number of
execution-tool invocations it performed (0 or 1). -/
def execute_query (database : String) (gen_result : JObj) (tool : ToolFun) :
    Except PyErr JObj × Nat :=
  if database = "postgresql" then
    let sql := gen_result.getD "sql" .null
    if !truthy sql then
      (.ok (JObj.ofL [("success", .bool false),
                      ("error", .str "No SQL query generated")]), 0)
    else (tool "postgres_query" (JObj.ofL [("sql", sql)]), 1)
  else if database = "mongodb" then
    let query_type := gen_result.getD "query_type" .null
    let collection := gen_result.getD "collection" .null
    if !truthy collection then
      (.ok (JObj.ofL [("success", .bool false),
                      ("error", .str "No collection specified")]), 0)
    else if query_type = .str "find" then
      (tool "mongodb_find"
        (JObj.ofL [("collection", collection),
                   ("filter", gen_result.getD "filter" (.obj .nil)),
                   ("projection", gen_result.getD "projection" .null),
                   ("sort", gen_result.getD "sort" .null),
                   ("limit", gen_result.getD "limit" (.num max_query_rows))]), 1)
    else if query_type = .str "aggregate" then
      (tool "mongodb_aggregate"
        (JObj.ofL [("collection", collection),
                   ("pipeline", gen_result.getD "pipeline" (.arr .nil)),
                   ("limit", gen_result.getD "limit" (.num max_query_rows))]), 1)
    else
      (.ok (JObj.ofL [("success", .bool false),
                      ("error", .str ("Unknown query type: " ++ pyToStr query_type))]), 0)
  else
    (.ok (JObj.ofL [("success", .bool false),
                    ("error", .str ("Unknown database: " ++ database))]), 0)

/-- The outcome of one `process_query` call: the result dict, the
conversation history after the call, and how many execution-tool calls
were dispatched. -/
structure PQOut where
  result : QueryResultM
  history : List HistMsg
  execCalls : Nat
deriving DecidableEq, Repr

/-- `DatabaseAgent.process_query` (src/src/agent/database_agent.py lines
71-156). Tracing is a discarded side channel (§ spec 4.4); the lazy
generator properties are the `Option GenFun` arguments (`none` models a
store with no generator, yielding the "not available" error of lines
199-200 / 206-207); `tool` is `MCPManager.execute_tool`. Exceptions
escaping the generator or the tool are caught by the `except` clause of
lines 149-151. History is appended only on the full-success path
(lines 137-145). -/
def process_query (user_query : String) (available_databases : List String)
    (sql_generator mongo_generator : Option GenFun) (tool : ToolFun)
    (history : List HistMsg) : PQOut :=
  let routing := fast_route user_query available_databases
  let db := routing.database
  let r0 := { initResult user_query with database := .str db }
  let gen_res : Except PyErr JObj :=
    if db = "postgresql" then
      match sql_generator with
      | none => .ok (JObj.ofL [("success", .bool false),
                               ("error", .str "PostgreSQL not available")])
      | some g => g user_query history
    else
      match mongo_generator with
      | none => .ok (JObj.ofL [("success", .bool false),
                               ("error", .str "MongoDB not available")])
      | some g => g user_query history
  match gen_res with
  | .error e => ⟨{ r0 with error := .str (pymsg e) }, history, 0⟩
  | .ok gen =>
    if !truthy (gen.getD "success" .null) then
      ⟨{ r0 with error := gen.getD "error" (.str "Failed to generate query") },
        history, 0⟩
    else
      let r1 := { r0 with generated_query := .obj gen,
                          explanation := gen.getD "explanation" (.str "") }
      match execute_query db gen tool with
      | (.error e, n) => ⟨{ r1 with error := .str (pymsg e) }, history, n⟩
      | (.ok exec_result, n) =>
        if !truthy (exec_result.getD "success" .null) then
          ⟨{ r1 with error := exec_result.getD "error" (.str "Query execution failed") },
            history, n⟩
        else
          let rc := exec_result.getD "row_count" (.num 0)
          let r2 := { r1 with success := true,
                              data := exec_result.getD "data" (.arr .nil),
                              row_count := some rc }
          ⟨r2, history ++ [⟨"user", user_query⟩,
                           ⟨"assistant", "Returned " ++ pyToStr rc ++ " rows"⟩], n⟩

/-- `DatabaseAgent.clear_history` (lines 265-267). -/
def clear_history (_history : List HistMsg) : List HistMsg := []

mutual
/-- The keys the `validate_mongo_safety` walk actually visits: each key
of the mapping, keys of nested mappings, and keys of mappings that are
direct elements of list values — not keys inside lists nested in lists. -/
def reach_keys_obj : JObj → List String
  | .nil => []
  | .cons k v t => k :: reach_keys_val v ++ reach_keys_obj t
/-- Value case of the visited-key collector. -/
def reach_keys_val : JVal → List String
  | .obj o => reach_keys_obj o
  | .arr l => reach_keys_list l
  | _ => []
/-- List case of the visited-key collector (dict items only, mirroring
`if isinstance(item, dict)`). -/
def reach_keys_list : JList → List String
  | .nil => []
  | .cons h t =>
      (match h with
       | .obj o => reach_keys_obj o
       | _ => []) ++ reach_keys_list t
end

mutual
/-- Every key occurring anywhere in a value, at any depth, including
inside lists nested in lists (the reading of C3's "at any depth"). -/
def all_keys_obj : JObj → List String
  | .nil => []
  | .cons k v t => k :: all_keys_val v ++ all_keys_obj t
/-- Value case of the full-depth key collector. -/
def all_keys_val : JVal → List String
  | .obj o => all_keys_obj o
  | .arr l => all_keys_list l
  | _ => []
/-- List case of the full-depth key collector: descends into all items. -/
def all_keys_list : JList → List String
  | .nil => []
  | .cons h t => all_keys_val h ++ all_keys_list t
end

/-- The five-rule routing decision policy exactly as § 4.1 of the spec
words it (rule 1 document-keyword win, rule 2 relational keyword
presence, rules 3-4 availability defaults, rule 5 degenerate), with the
stated per-branch confidences. Stated from the spec to be compared with
`fast_route`. -/
def route_policy_spec (question : String) (availableStores : List String) :
    RouteDecision :=
  let document_score := mongo_score (pyLower question)
  let relational_score := postgres_score (pyLower question)
  let document_available : Bool := "mongodb" ∈ availableStores
  let relational_available : Bool := "postgresql" ∈ availableStores
  if document_score > relational_score && document_available then
    ⟨"mongodb", 0.8⟩
  else if relational_score > 0 && relational_available then
    ⟨"postgresql", 0.8⟩
  else if relational_available then ⟨"postgresql", 0.6⟩
  else if document_available then ⟨"mongodb", 0.6⟩
  else ⟨"postgresql", 0.5⟩

/-- The stage-safety loop of `MongoDBMCPClient._handle_aggregate`
(src/src/mcp/mongodb_mcp.py lines 169-175): every stage must pass
`_is_safe_query`, the first unsafe one aborts. -/
def handle_aggregate_stage_check : JList → Except PyErr Bool
  | .nil => .ok true
  | .cons stage rest => do
      let ok ← is_safe_query stage
      if !ok then pure false else handle_aggregate_stage_check rest

/-- After `d[k] = v`, looking up `k` yields `v`. -/
theorem JObj.lookup_set_self : ∀ (o : JObj) (k : String) (v : JVal),
    (o.set k v).lookup k = some v
  | .nil, k, v => by simp [JObj.set, JObj.lookup]
  | .cons k0 v0 t, k, v => by
      by_cases h : k = k0
      · subst h
        simp [JObj.set, JObj.lookup]
      · simp [JObj.set, JObj.lookup, h, JObj.lookup_set_self t k v]

/-- After `d[k] = v`, every other key is unchanged. -/
theorem JObj.lookup_set_ne : ∀ (o : JObj) (k k' : String) (v : JVal),
    k' ≠ k → (o.set k v).lookup k' = o.lookup k'
  | .nil, k, k', v, h => by simp [JObj.set, JObj.lookup, h]
  | .cons k0 v0 t, k, k', v, h => by
      by_cases h0 : k = k0
      · subst h0
        simp [JObj.set, JObj.lookup, h]
      · simp only [JObj.set, if_neg h0, JObj.lookup,
          JObj.lookup_set_ne t k k' v h]

/-- The unsafe outcomes of `validate_sql_safety`, characterised: some
blocked keyword occurs (uppercased) in the uppercased text, or the text
has at least two `;`. -/
theorem validate_sql_safety_unsafe_iff (sql : String) (bl : List String) :
    (validate_sql_safety sql bl).safe = false ↔
      ((∃ kw ∈ bl, pyIn (pyUpper kw) (pyUpper sql) = true) ∨ 2 ≤ countSemi sql) := by
  unfold validate_sql_safety
  cases hf : List.find? (fun kw => pyIn (pyUpper kw) (pyUpper sql)) bl with
  | some kw =>
      have hmem := List.mem_of_find?_eq_some hf
      have hp : pyIn (pyUpper kw) (pyUpper sql) = true := by
        simpa using List.find?_some hf
      simp only [hf]
      exact ⟨fun _ => Or.inl ⟨kw, hmem, hp⟩, fun _ => by trivial⟩
  | none =>
      have hnone := List.find?_eq_none.1 hf
      simp only [hf]
      by_cases hc : countSemi sql > 1
      · rw [if_pos hc]
        exact ⟨fun _ => Or.inr hc, fun _ => by trivial⟩
      · rw [if_neg hc]
        constructor
        · intro h
          exact absurd h (by simp)
        · rintro (⟨kw, hm, hp⟩ | h2)
          · exact absurd hp (by simpa using hnone kw hm)
          · exact absurd h2 (by omega)

/-- C2: `validate_sql_safety` flags a query as unsafe exactly when the
uppercased text contains some uppercased entry of the configured
denylist as a substring or the text has two or more `;`; in particular
it rejects any text containing `DROP TABLE` in any case, rejects any
text with more than one `;`, and accepts
`SELECT * FROM customers LIMIT 100`. -/
theorem claim_C2 :
    (∀ sql : String,
        (validate_sql_safety sql blocked_sql_keywords).safe = false ↔
          ((∃ kw ∈ blocked_sql_keywords,
              (pyUpper kw).toList <:+: (pyUpper sql).toList) ∨ 2 ≤ countSemi sql)) ∧
    (∀ sql : String,
        (pyUpper "DROP TABLE").toList <:+: (pyUpper sql).toList →
        (validate_sql_safety sql blocked_sql_keywords).safe = false) ∧
    (∀ sql : String, 2 ≤ countSemi sql →
        (validate_sql_safety sql blocked_sql_keywords).safe = false) ∧
    (validate_sql_safety "SELECT * FROM customers LIMIT 100"
        blocked_sql_keywords).safe = true := by
  have hiff : ∀ sql : String,
      (validate_sql_safety sql blocked_sql_keywords).safe = false ↔
        ((∃ kw ∈ blocked_sql_keywords,
            (pyUpper kw).toList <:+: (pyUpper sql).toList) ∨ 2 ≤ countSemi sql) := by
    intro sql
    rw [validate_sql_safety_unsafe_iff]
    constructor
    · rintro (⟨kw, hm, hp⟩ | h)
      · exact Or.inl ⟨kw, hm, (pyIn_iff _ _).1 hp⟩
      · exact Or.inr h
    · rintro (⟨kw, hm, hp⟩ | h)
      · exact Or.inl ⟨kw, hm, (pyIn_iff _ _).2 hp⟩
      · exact Or.inr h
  refine ⟨hiff, ?_, ?_, rfl⟩
  · intro sql h
    refine (hiff sql).2 (Or.inl ⟨"DROP", by simp [blocked_sql_keywords], ?_⟩)
    exact List.IsInfix.trans ((pyIn_iff (pyUpper "DROP") (pyUpper "DROP TABLE")).1 rfl) h
  · intro sql h
    exact (hiff sql).2 (Or.inr h)

/-- Witness for C2 at concrete inputs: a lower-case `drop table`
statement and a two-semicolon statement are both rejected. -/
theorem claim_C2_witness :
    (validate_sql_safety "drop table students" blocked_sql_keywords).safe = false ∧
    (validate_sql_safety "SELECT 1; SELECT 2;" blocked_sql_keywords).safe = false := by
  constructor
  · exact claim_C2.2.1 "drop table students" ((pyIn_iff _ _).1 rfl)
  · exact claim_C2.2.2.1 "SELECT 1; SELECT 2;" (by decide)

/-- C5 counterexample: passing a non-mapping (here a string) to
`validate_mongo_safety` raises `AttributeError` at `query.items()`
instead of returning an unsafe verdict, so the validator is not total
over all input values. -/
theorem claim_C5_counterexample :
    validate_mongo_safety (.str "not a mapping") = .error .attributeError ∧
    ∀ v : Verdict, validate_mongo_safety (.str "not a mapping") ≠ .ok v := by
  refine ⟨rfl, fun v h => ?_⟩
  simp [validate_mongo_safety] at h

/-- C5 (amended): `validate_sql_safety` always returns a verdict, with a
reason exactly on the unsafe outcome; `validate_mongo_safety` returns a
verdict — never an exception — for every *mapping* input, however its
nested values are shaped, again with a reason exactly when unsafe; but
a non-mapping top-level input raises `AttributeError` rather than
degrading to an unsafe verdict. -/
theorem claim_C5 :
    (∀ (sql : String) (bl : List String),
        ((validate_sql_safety sql bl).safe = false →
          ((validate_sql_safety sql bl).reason).isSome = true) ∧
        ((validate_sql_safety sql bl).safe = true →
          (validate_sql_safety sql bl).reason = none)) ∧
    (∀ o : JObj, ∃ v : Verdict, validate_mongo_safety (.obj o) = .ok v ∧
        (v.safe = false → v.reason.isSome = true) ∧
        (v.safe = true → v.reason = none)) := by
  constructor
  · intro sql bl
    unfold validate_sql_safety
    cases List.find? (fun kw => pyIn (pyUpper kw) (pyUpper sql)) bl with
    | some kw => exact ⟨fun _ => rfl, fun h => by simp at h⟩
    | none =>
        by_cases hc : countSemi sql > 1
        · rw [if_pos hc]
          exact ⟨fun _ => rfl, fun h => by simp at h⟩
        · rw [if_neg hc]
          exact ⟨fun h => by simp at h, fun _ => rfl⟩
  · intro o
    have hdef : validate_mongo_safety (.obj o) =
        (match check_dict dangerous_operators o with
         | some reason => .ok ⟨false, some reason⟩
         | none => .ok ⟨true, none⟩) := rfl
    rw [hdef]
    cases check_dict dangerous_operators o with
    | some r => exact ⟨⟨false, some r⟩, rfl, fun _ => rfl, fun h => by simp at h⟩
    | none => exact ⟨⟨true, none⟩, rfl, fun h => by simp at h, fun _ => rfl⟩

/-- Witness for C5 at concrete inputs: an unsafe SQL text has a reason,
a safe one has none, and a concrete mapping input gets a verdict. -/
theorem claim_C5_witness :
    ((validate_sql_safety "DROP TABLE x" blocked_sql_keywords).reason).isSome = true ∧
    (validate_sql_safety "SELECT 1" blocked_sql_keywords).reason = none ∧
    ∃ v : Verdict,
      validate_mongo_safety (.obj (.cons "status" (.str "active") .nil)) = .ok v := by
  refine ⟨?_, ?_, ?_⟩
  · exact (claim_C5.1 "DROP TABLE x" blocked_sql_keywords).1 rfl
  · exact (claim_C5.1 "SELECT 1" blocked_sql_keywords).2 rfl
  · obtain ⟨v, hv, -, -⟩ := claim_C5.2 (.cons "status" (.str "active") .nil)
    exact ⟨v, hv⟩

mutual
/-- The generator-side walk finds nothing exactly when no visited key is
a dangerous operator. -/
theorem check_dict_none_iff (ops : List String) : ∀ o : JObj,
    check_dict ops o = none ↔ ∀ k ∈ reach_keys_obj o, k ∉ ops
  | .nil => by simp [check_dict, reach_keys_obj]
  | .cons k v t => by
      have h1 := check_val_none_iff ops v
      have h2 := check_dict_none_iff ops t
      by_cases hk : k ∈ ops
      · simp [check_dict, hk, reach_keys_obj]
      · cases hv : check_val ops v with
        | some r =>
            rw [hv] at h1
            have h1' : ¬ ∀ x ∈ reach_keys_val v, x ∉ ops := fun hh =>
              Option.noConfusion (h1.2 hh)
            simp only [check_dict, if_neg hk, hv, reach_keys_obj]
            constructor
            · intro hcontra
              exact Option.noConfusion hcontra
            · intro hh
              exact absurd
                (fun x hx => hh x (List.mem_cons_of_mem _ (List.mem_append_left _ hx)))
                h1'
        | none =>
            rw [hv] at h1
            have hval : ∀ x ∈ reach_keys_val v, x ∉ ops := h1.1 rfl
            simp only [check_dict, if_neg hk, hv, reach_keys_obj]
            rw [h2]
            constructor
            · intro ht x hx
              rcases List.mem_cons.1 hx with rfl | hx2
              · exact hk
              · rcases List.mem_append.1 hx2 with hxa | hxb
                · exact hval x hxa
                · exact ht x hxb
            · intro hh x hx
              exact hh x (List.mem_cons_of_mem _ (List.mem_append_right _ hx))
/-- Value case of the characterisation. -/
theorem check_val_none_iff (ops : List String) : ∀ v : JVal,
    check_val ops v = none ↔ ∀ k ∈ reach_keys_val v, k ∉ ops
  | .null => by simp [check_val, reach_keys_val]
  | .bool _ => by simp [check_val, reach_keys_val]
  | .num _ => by simp [check_val, reach_keys_val]
  | .str _ => by simp [check_val, reach_keys_val]
  | .obj o => by
      simp only [check_val, reach_keys_val]
      exact check_dict_none_iff ops o
  | .arr l => by
      simp only [check_val, reach_keys_val]
      exact check_list_none_iff ops l
/-- List case of the characterisation. -/
theorem check_list_none_iff (ops : List String) : ∀ l : JList,
    check_list ops l = none ↔ ∀ k ∈ reach_keys_list l, k ∉ ops
  | .nil => by simp [check_list, reach_keys_list]
  | .cons (.obj o) t => by
      have h1 := check_dict_none_iff ops o
      have h2 := check_list_none_iff ops t
      cases ho : check_dict ops o with
      | some r =>
          rw [ho] at h1
          have h1' : ¬ ∀ x ∈ reach_keys_obj o, x ∉ ops := fun hh =>
            Option.noConfusion (h1.2 hh)
          simp only [check_list, ho, reach_keys_list]
          constructor
          · intro hcontra
            exact Option.noConfusion hcontra
          · intro hh
            exact absurd (fun x hx => hh x (List.mem_append_left _ hx)) h1'
      | none =>
          rw [ho] at h1
          have hobj : ∀ x ∈ reach_keys_obj o, x ∉ ops := h1.1 rfl
          simp only [check_list, ho, reach_keys_list]
          rw [h2]
          constructor
          · intro ht x hx
            rcases List.mem_append.1 hx with hxa | hxb
            · exact hobj x hxa
            · exact ht x hxb
          · intro hh x hx
            exact hh x (List.mem_append_right _ hx)
  | .cons .null t => by
      simpa [check_list, reach_keys_list] using check_list_none_iff ops t
  | .cons (.bool b) t => by
      simpa [check_list, reach_keys_list] using check_list_none_iff ops t
  | .cons (.num n) t => by
      simpa [check_list, reach_keys_list] using check_list_none_iff ops t
  | .cons (.str s) t => by
      simpa [check_list, reach_keys_list] using check_list_none_iff ops t
  | .cons (.arr l2) t => by
      simpa [check_list, reach_keys_list] using check_list_none_iff ops t
end

mutual
/-- The dispatch-side walk accepts exactly when no visited key is in its
three-entry denylist. -/
theorem mcp_check_dict_iff : ∀ o : JObj,
    mcp_check_dict o = true ↔
      ∀ k ∈ reach_keys_obj o, k ∉ dangerous_operators_mcp
  | .nil => by simp [mcp_check_dict, reach_keys_obj]
  | .cons k v t => by
      have h1 := mcp_check_val_iff v
      have h2 := mcp_check_dict_iff t
      by_cases hk : k ∈ dangerous_operators_mcp
      · simp [mcp_check_dict, hk, reach_keys_obj]
      · simp only [mcp_check_dict, if_neg hk, Bool.and_eq_true, reach_keys_obj]
        rw [h1, h2]
        constructor
        · intro hh x hx
          rcases List.mem_cons.1 hx with rfl | hx2
          · exact hk
          · rcases List.mem_append.1 hx2 with hxa | hxb
            · exact hh.1 x hxa
            · exact hh.2 x hxb
        · intro hh
          constructor
          · intro x hx
            exact hh x (List.mem_cons_of_mem _ (List.mem_append_left _ hx))
          · intro x hx
            exact hh x (List.mem_cons_of_mem _ (List.mem_append_right _ hx))
/-- Value case of the dispatch-side characterisation. -/
theorem mcp_check_val_iff : ∀ v : JVal,
    mcp_check_val v = true ↔
      ∀ k ∈ reach_keys_val v, k ∉ dangerous_operators_mcp
  | .null => by simp [mcp_check_val, reach_keys_val]
  | .bool _ => by simp [mcp_check_val, reach_keys_val]
  | .num _ => by simp [mcp_check_val, reach_keys_val]
  | .str _ => by simp [mcp_check_val, reach_keys_val]
  | .obj o => by
      simp only [mcp_check_val, reach_keys_val]
      exact mcp_check_dict_iff o
  | .arr l => by
      simp only [mcp_check_val, reach_keys_val]
      exact mcp_check_list_iff l
/-- List case of the dispatch-side characterisation. -/
theorem mcp_check_list_iff : ∀ l : JList,
    mcp_check_list l = true ↔
      ∀ k ∈ reach_keys_list l, k ∉ dangerous_operators_mcp
  | .nil => by simp [mcp_check_list, reach_keys_list]
  | .cons (.obj o) t => by
      have h1 := mcp_check_dict_iff o
      have h2 := mcp_check_list_iff t
      simp only [mcp_check_list, Bool.and_eq_true, reach_keys_list]
      rw [h1, h2]
      constructor
      · intro hh x hx
        rcases List.mem_append.1 hx with hxa | hxb
        · exact hh.1 x hxa
        · exact hh.2 x hxb
      · intro hh
        constructor
        · intro x hx
          exact hh x (List.mem_append_left _ hx)
        · intro x hx
          exact hh x (List.mem_append_right _ hx)
  | .cons .null t => by
      simpa [mcp_check_list, reach_keys_list] using mcp_check_list_iff t
  | .cons (.bool b) t => by
      simpa [mcp_check_list, reach_keys_list] using mcp_check_list_iff t
  | .cons (.num n) t => by
      simpa [mcp_check_list, reach_keys_list] using mcp_check_list_iff t
  | .cons (.str s) t => by
      simpa [mcp_check_list, reach_keys_list] using mcp_check_list_iff t
  | .cons (.arr l2) t => by
      simpa [mcp_check_list, reach_keys_list] using mcp_check_list_iff t
end

/-- The generator's pipeline loop checks each stage in order and the
first stage the walk flags replaces the result with that stage's
specific reason. -/
theorem mongo_stage_loop_eq (result : JObj) : ∀ stages : List JObj,
    mongo_stage_loop (JList.ofL (stages.map JVal.obj)) result =
      .ok (match stages.findSome? (fun st => check_dict dangerous_operators st) with
           | some r => mongo_safety_fail (some r)
           | none => result)
  | [] => by simp [JList.ofL, mongo_stage_loop]
  | st :: rest => by
      have ih := mongo_stage_loop_eq result rest
      simp only [List.map_cons, JList.ofL, List.findSome?_cons]
      cases hc : check_dict dangerous_operators st with
      | some r =>
          simp [mongo_stage_loop, validate_mongo_safety, hc, Bind.bind, Except.bind,
            Pure.pure, Except.pure]
      | none =>
          simpa [mongo_stage_loop, validate_mongo_safety, hc, Bind.bind,
            Except.bind, Pure.pure, Except.pure] using ih

/-- A mapping whose only dangerous key sits in a mapping inside a list
inside a list — a spot the walk never visits. -/
def c3_nested : JObj :=
  .cons "a"
    (.arr (.cons (.arr (.cons (.obj (.cons "$where" (.str "this.a > 1") .nil)) .nil))
      .nil)) .nil

/-- The `$match` stage of the accepted example pipeline. -/
def c3_match_stage : JObj :=
  .cons "$match" (.obj (.cons "status" (.str "active") .nil)) .nil

/-- The `$group` stage of the accepted example pipeline. -/
def c3_group_stage : JObj :=
  .cons "$group" (.obj (.cons "_id" (.str "$event_type") .nil)) .nil

/-- The `$limit` stage of the accepted example pipeline. -/
def c3_limit_stage : JObj := .cons "$limit" (.num 100) .nil

/-- C3 counterexample: `{"a": [[{"$where": "this.a > 1"}]]}` has the key
`$where` at some depth inside lists, yet both `validate_mongo_safety`
and the dispatch-side `_is_safe_query` report it safe, because the walk
does not descend into lists nested inside lists — refuting the claimed
"any depth" if-and-only-if. -/
theorem claim_C3_counterexample :
    "$where" ∈ all_keys_obj c3_nested ∧
    validate_mongo_safety (.obj c3_nested) = .ok ⟨true, none⟩ ∧
    is_safe_query (.obj c3_nested) = .ok true := by
  exact ⟨by decide, rfl, rfl⟩

/-- C3 (amended): `validate_mongo_safety` returns unsafe iff a key equal
to `$where` or `$function` is *visited* by the walk — which descends
into nested mappings and into mappings that are direct elements of list
values, but not into lists nested inside lists; the dispatch-side
`_is_safe_query` behaves the same with `$accumulator` added; a pipeline
is checked stage by stage and the first flagged stage aborts with its
specific reason; `{"status": "active"}` and a
`[$match, $group, $limit]` pipeline are accepted. -/
theorem claim_C3 :
    (∀ (o : JObj) (v : Verdict), validate_mongo_safety (.obj o) = .ok v →
        (v.safe = false ↔ ∃ k ∈ reach_keys_obj o, k ∈ dangerous_operators)) ∧
    (∀ o : JObj, (is_safe_query (.obj o) = .ok false ↔
        ∃ k ∈ reach_keys_obj o, k ∈ dangerous_operators_mcp)) ∧
    (∀ (stages : List JObj) (result : JObj),
        mongo_stage_loop (JList.ofL (stages.map JVal.obj)) result =
          .ok (match stages.findSome? (fun st => check_dict dangerous_operators st) with
               | some r => mongo_safety_fail (some r)
               | none => result)) ∧
    validate_mongo_safety (.obj (.cons "status" (.str "active") .nil)) =
      .ok ⟨true, none⟩ ∧
    (∀ result : JObj,
        mongo_stage_loop
          (JList.ofL ([c3_match_stage, c3_group_stage, c3_limit_stage].map JVal.obj))
          result = .ok result) := by
  refine ⟨?_, ?_, fun stages result => mongo_stage_loop_eq result stages, rfl, ?_⟩
  · intro o v h
    have hd : validate_mongo_safety (.obj o) =
        (match check_dict dangerous_operators o with
         | some reason => .ok ⟨false, some reason⟩
         | none => .ok ⟨true, none⟩) := rfl
    rw [hd] at h
    cases hc : check_dict dangerous_operators o with
    | some r =>
        rw [hc] at h
        injection h with h1
        subst h1
        have hne : ¬ ∀ k ∈ reach_keys_obj o, k ∉ dangerous_operators := by
          intro hh
          rw [(check_dict_none_iff dangerous_operators o).2 hh] at hc
          exact Option.noConfusion hc
        push_neg at hne
        exact ⟨fun _ => hne, fun _ => rfl⟩
    | none =>
        rw [hc] at h
        injection h with h1
        subst h1
        have hall := (check_dict_none_iff dangerous_operators o).1 hc
        constructor
        · intro hcontra
          exact absurd hcontra (by simp)
        · rintro ⟨k, hk, hop⟩
          exact absurd hop (hall k hk)
  · intro o
    have hd : is_safe_query (.obj o) = .ok (mcp_check_dict o) := rfl
    rw [hd]
    constructor
    · intro h
      have hb : mcp_check_dict o = false := by injection h
      have hne : ¬ ∀ k ∈ reach_keys_obj o, k ∉ dangerous_operators_mcp := by
        intro hh
        rw [(mcp_check_dict_iff o).2 hh] at hb
        exact Bool.noConfusion hb
      push_neg at hne
      exact hne
    · rintro ⟨k, hk, hop⟩
      have hb : mcp_check_dict o ≠ true := by
        intro ht
        exact absurd hop ((mcp_check_dict_iff o).1 ht k hk)
      have hb' : mcp_check_dict o = false := by
        cases hmc : mcp_check_dict o with
        | false => rfl
        | true => exact absurd hmc hb
      rw [hb']
  · intro result
    rw [mongo_stage_loop_eq result [c3_match_stage, c3_group_stage, c3_limit_stage]]
    rfl

/-- Witness for C3 at a concrete input: the amended characterisation
applied to `{"$where": "this.a > 1"}` yields a visited dangerous key. -/
theorem claim_C3_witness :
    ∃ k ∈ reach_keys_obj (JObj.cons "$where" (.str "this.a > 1") .nil),
      k ∈ dangerous_operators := by
  exact (claim_C3.1 (JObj.cons "$where" (.str "this.a > 1") .nil)
    ⟨false, some "Query contains dangerous operator: $where"⟩ rfl).1 rfl

/-- The document keyword score is zero exactly when no document keyword
occurs in the text. -/
theorem mongo_score_eq_zero_iff (q : String) :
    mongo_score q = 0 ↔ ∀ kw ∈ mongo_keywords, ¬ kw.toList <:+: q.toList := by
  unfold mongo_score
  rw [List.length_eq_zero, List.filter_eq_nil_iff]
  constructor
  · intro h kw hm hin
    exact h kw hm (by simpa using (pyIn_iff kw q).2 hin)
  · intro h kw hm
    simpa using fun hin => h kw hm ((pyIn_iff kw q).1 hin)

/-- The relational keyword score is positive exactly when some
relational keyword occurs in the text. -/
theorem postgres_score_pos_iff (q : String) :
    0 < postgres_score q ↔ ∃ kw ∈ postgres_keywords, kw.toList <:+: q.toList := by
  unfold postgres_score
  rw [List.length_pos]
  constructor
  · intro h
    rcases List.exists_mem_of_ne_nil _ h with ⟨kw, hkw⟩
    rcases List.mem_filter.1 hkw with ⟨hm, hp⟩
    exact ⟨kw, hm, (pyIn_iff kw q).1 hp⟩
  · rintro ⟨kw, hm, hin⟩
    intro hnil
    have : kw ∈ List.filter (fun kw => pyIn kw q) postgres_keywords :=
      List.mem_filter.2 ⟨hm, (pyIn_iff kw q).2 hin⟩
    rw [hnil] at this
    exact absurd this (List.not_mem_nil kw)

/-- C4: the fast router implements the spec's five-rule decision policy
with its per-branch confidences; in particular a question containing a
relational keyword and no document keyword routes relational with 0.8
when both stores are available, and equal nonzero scores resolve to the
relational store. -/
theorem claim_C4 :
    (∀ (q : String) (avail : List String),
        fast_route q avail = route_policy_spec q avail) ∧
    (∀ (q : String) (avail : List String),
        "postgresql" ∈ avail → "mongodb" ∈ avail →
        (∃ kw ∈ postgres_keywords, kw.toList <:+: (pyLower q).toList) →
        (∀ kw ∈ mongo_keywords, ¬ kw.toList <:+: (pyLower q).toList) →
        fast_route q avail = ⟨"postgresql", 0.8⟩) ∧
    (∀ (q : String) (avail : List String),
        "postgresql" ∈ avail →
        mongo_score (pyLower q) = postgres_score (pyLower q) →
        0 < postgres_score (pyLower q) →
        fast_route q avail = ⟨"postgresql", 0.8⟩) := by
  refine ⟨fun q avail => rfl, ?_, ?_⟩
  · intro q avail hpg hmg hex hnone
    have hp : 0 < postgres_score (pyLower q) := (postgres_score_pos_iff _).2 hex
    have hm : mongo_score (pyLower q) = 0 := (mongo_score_eq_zero_iff _).2 hnone
    simp only [fast_route]
    rw [hm]
    have h1 : ¬ (decide (0 > postgres_score (pyLower q)) &&
        decide ("mongodb" ∈ avail)) = true := by
      simp
    rw [if_neg h1, if_pos (by simp [hp, hpg])]
  · intro q avail hpg heq hp
    simp only [fast_route]
    rw [heq]
    have h1 : ¬ (decide (postgres_score (pyLower q) > postgres_score (pyLower q)) &&
        decide ("mongodb" ∈ avail)) = true := by
      simp
    rw [if_neg h1, if_pos (by simp [hp, hpg])]

/-- Witness for C4 at concrete inputs: a customers question routes
relational with 0.8; a question hitting both keyword lists equally
("order logs"?) resolves to relational. -/
theorem claim_C4_witness :
    fast_route "show me all customers" ["postgresql", "mongodb"] =
      ⟨"postgresql", 0.8⟩ ∧
    fast_route "one order one log" ["postgresql", "mongodb"] =
      ⟨"postgresql", 0.8⟩ := by
  constructor
  · refine claim_C4.2.1 "show me all customers" ["postgresql", "mongodb"]
      (by decide) (by decide) ⟨"customer", by decide, (pyIn_iff _ _).1 rfl⟩ ?_
    intro kw hkw
    fin_cases hkw <;>
      exact fun hin => by
        have := (pyIn_iff _ _).2 hin
        revert this
        decide
  · exact claim_C4.2.2 "one order one log" ["postgresql", "mongodb"]
      (by decide) rfl (by decide)

/-- C9: the execution layer appends a `{"$limit": limit}` stage at the
end of an aggregation pipeline exactly when no stage of the pipeline
has a top-level `$limit` key; when such a stage exists the pipeline the
driver receives is the generator's pipeline unchanged. -/
theorem claim_C9 :
    ∀ (pipeline : List JObj) (limit : Option Int),
      (aggregate_effective_pipeline pipeline limit = pipeline ↔
        ∃ stage ∈ pipeline, (stage.lookup "$limit").isSome = true) ∧
      ((∀ stage ∈ pipeline, stage.lookup "$limit" = none) →
        aggregate_effective_pipeline pipeline limit =
          pipeline ++ [JObj.cons "$limit" (.num (aggregate_effective_limit limit)) .nil]) := by
  intro pipeline limit
  unfold aggregate_effective_pipeline
  cases ha : pipeline.any (fun stage => (stage.lookup "$limit").isSome) with
  | true =>
      rw [if_pos rfl]
      constructor
      · exact ⟨fun _ => List.any_eq_true.1 ha, fun _ => rfl⟩
      · intro hnone
        rcases List.any_eq_true.1 ha with ⟨st, hmem, hsome⟩
        rw [hnone st hmem] at hsome
        exact Bool.noConfusion hsome
  | false =>
      rw [if_neg (by simp)]
      constructor
      · constructor
        · intro h
          have := congrArg List.length h
          simp at this
        · rintro ⟨st, hmem, hsome⟩
          have hcontra : pipeline.any (fun stage => (stage.lookup "$limit").isSome) = true :=
            List.any_eq_true.2 ⟨st, hmem, hsome⟩
          rw [ha] at hcontra
          exact Bool.noConfusion hcontra
      · intro _
        rfl

/-- Witness for C9 at concrete pipelines: without a `$limit` stage the
default limit is appended; with one, the pipeline is unchanged. -/
theorem claim_C9_witness :
    aggregate_effective_pipeline [c3_match_stage, c3_group_stage] none =
      [c3_match_stage, c3_group_stage, JObj.cons "$limit" (.num 1000) .nil] ∧
    aggregate_effective_pipeline [c3_match_stage, c3_limit_stage] (some 50) =
      [c3_match_stage, c3_limit_stage] := by
  constructor
  · exact (claim_C9 [c3_match_stage, c3_group_stage] none).2 (by decide)
  · exact ((claim_C9 [c3_match_stage, c3_limit_stage] (some 50)).1).2
      ⟨c3_limit_stage, by decide, by decide⟩

/-- Evaluation of the relational parser once the decode yields an
object. -/
theorem sql_parse_response_obj (t : String) (o : JObj)
    (h : json_loads (clean_response t) = some (.obj o)) :
    sql_parse_response t =
      (if truthy (o.getD "sql" .null) then
        match o.getD "sql" .null with
        | .str s => .ok ((o.set "sql" (.str (pyStrip s))).set "success" (.bool true))
        | _ => .error .attributeError
      else .ok (o.set "success" (.bool false))) := by
  unfold sql_parse_response
  rw [h]

/-- Evaluation of the document parser once the decode yields an
object. -/
theorem mongo_parse_response_obj (t : String) (o : JObj)
    (h : json_loads (clean_response t) = some (.obj o)) :
    mongo_parse_response t =
      (if truthy (o.getD "query_type" .null) then
        .ok (o.set "success" (.bool true))
      else .ok (o.set "success" (.bool false))) := by
  unfold mongo_parse_response
  rw [h]

/-- C8 counterexample: for the syntactically valid success JSON
`{"sql": " SELECT 1"}` the relational parser does not return the `sql`
field with its exact value — it strips the leading whitespace — so the
round-trip is not exact on every field. -/
theorem claim_C8_counterexample :
    json_loads (clean_response "\x7b\"sql\": \" SELECT 1\"\x7d") =
      some (.obj (.cons "sql" (.str " SELECT 1") .nil)) ∧
    sql_parse_response "\x7b\"sql\": \" SELECT 1\"\x7d" =
      .ok (.cons "sql" (.str "SELECT 1") (.cons "success" (.bool true) .nil)) ∧
    (" SELECT 1" : String) ≠ "SELECT 1" := by
  exact ⟨rfl, rfl, by decide⟩

/-- C8 (amended): for every LLM response text whose cleaned form decodes
as a success JSON object, each parser returns every field of the input
object with its exact value, except that the relational parser replaces
the `sql` field's value by its whitespace-stripped form and both
parsers write the `success` tag (overwriting any input value under that
key); no field is dropped. -/
theorem claim_C8 :
    (∀ (t : String) (o : JObj) (s : String),
        json_loads (clean_response t) = some (.obj o) →
        o.lookup "sql" = some (.str s) → s ≠ "" →
        ∃ o', sql_parse_response t = .ok o' ∧
          o'.lookup "sql" = some (.str (pyStrip s)) ∧
          o'.lookup "success" = some (.bool true) ∧
          ∀ k, k ≠ "sql" → k ≠ "success" → o'.lookup k = o.lookup k) ∧
    (∀ (t : String) (o : JObj),
        json_loads (clean_response t) = some (.obj o) →
        truthy (o.getD "query_type" .null) = true →
        ∃ o', mongo_parse_response t = .ok o' ∧
          o'.lookup "success" = some (.bool true) ∧
          ∀ k, k ≠ "success" → o'.lookup k = o.lookup k) := by
  constructor
  · intro t o s hjson hsql hne
    have hget : o.getD "sql" .null = .str s := by
      unfold JObj.getD
      rw [hsql]
    have htr : truthy (JVal.str s) = true := by
      simpa [truthy] using hne
    refine ⟨(o.set "sql" (.str (pyStrip s))).set "success" (.bool true), ?_, ?_, ?_, ?_⟩
    · rw [sql_parse_response_obj t o hjson, hget, if_pos htr]
    · rw [JObj.lookup_set_ne _ _ _ _ (by decide), JObj.lookup_set_self]
    · rw [JObj.lookup_set_self]
    · intro k hk1 hk2
      rw [JObj.lookup_set_ne _ _ _ _ hk2, JObj.lookup_set_ne _ _ _ _ hk1]
  · intro t o hjson htr
    refine ⟨o.set "success" (.bool true), ?_, ?_, ?_⟩
    · rw [mongo_parse_response_obj t o hjson, if_pos htr]
    · rw [JObj.lookup_set_self]
    · intro k hk
      rw [JObj.lookup_set_ne _ _ _ _ hk]

/-- Witness for C8 at a concrete fenced response for each parser. -/
theorem claim_C8_witness :
    (∃ o', sql_parse_response "```json\n\x7b\"sql\": \"SELECT 1\", \"tables_used\": [\"t\"]\x7d\n```" =
        .ok o' ∧
      o'.lookup "sql" = some (.str (pyStrip "SELECT 1")) ∧
      o'.lookup "success" = some (.bool true) ∧
      ∀ k, k ≠ "sql" → k ≠ "success" →
        o'.lookup k =
          (JObj.cons "sql" (.str "SELECT 1")
            (.cons "tables_used" (.arr (.cons (.str "t") .nil)) .nil)).lookup k) ∧
    (∃ o', mongo_parse_response "\x7b\"query_type\": \"find\", \"collection\": \"events\"\x7d" =
        .ok o' ∧
      o'.lookup "success" = some (.bool true) ∧
      ∀ k, k ≠ "success" →
        o'.lookup k =
          (JObj.cons "query_type" (.str "find")
            (.cons "collection" (.str "events") .nil)).lookup k) := by
  constructor
  · exact claim_C8.1 "```json\n\x7b\"sql\": \"SELECT 1\", \"tables_used\": [\"t\"]\x7d\n```"
      (JObj.cons "sql" (.str "SELECT 1")
        (.cons "tables_used" (.arr (.cons (.str "t") .nil)) .nil))
      "SELECT 1" rfl rfl (by decide)
  · exact claim_C8.2 "\x7b\"query_type\": \"find\", \"collection\": \"events\"\x7d"
      (JObj.cons "query_type" (.str "find")
        (.cons "collection" (.str "events") .nil)) rfl rfl

/-- Evaluation of the relational parser when the decode fails: the
`SELECT …` regex fallback. -/
theorem sql_parse_response_none (t : String)
    (h : json_loads (clean_response t) = none) :
    sql_parse_response t =
      (match extract_select (clean_response t).toList with
       | some sql =>
           .ok (JObj.ofL [("success", .bool true), ("sql", .str (pyStrip sql)),
                          ("explanation", .str "Extracted from response"),
                          ("tables_used", .arr .nil)])
       | none =>
           .ok (JObj.ofL [("success", .bool false),
                          ("error", .str "Failed to parse response: JSONDecodeError"),
                          ("sql", .null)])) := by
  unfold sql_parse_response
  rw [h]

/-- Any parser result carrying a non-empty string under `sql` is tagged
`success = True`. -/
theorem sql_parse_success_of_sql (t : String) (o : JObj) (s : String)
    (h : sql_parse_response t = .ok o) (hsql : o.lookup "sql" = some (.str s))
    (hne : s ≠ "") : o.getD "success" .null = .bool true := by
  cases hj : json_loads (clean_response t) with
  | some v =>
      cases v with
      | obj result =>
          rw [sql_parse_response_obj t result hj] at h
          by_cases htr : truthy (result.getD "sql" .null) = true
          · rw [if_pos htr] at h
            cases hv : result.getD "sql" .null with
            | str s0 =>
                rw [hv] at h
                injection h with h1
                subst h1
                unfold JObj.getD
                rw [JObj.lookup_set_self]
            | null => rw [hv] at h; exact Except.noConfusion h
            | bool b => rw [hv] at h; exact Except.noConfusion h
            | num n => rw [hv] at h; exact Except.noConfusion h
            | arr l => rw [hv] at h; exact Except.noConfusion h
            | obj o2 => rw [hv] at h; exact Except.noConfusion h
          · rw [if_neg htr] at h
            injection h with h1
            subst h1
            rw [JObj.lookup_set_ne _ _ _ _ (by decide)] at hsql
            exfalso
            apply htr
            unfold JObj.getD
            rw [hsql]
            simpa [truthy] using hne
      | null => unfold sql_parse_response at h; rw [hj] at h; simp at h
      | bool b => unfold sql_parse_response at h; rw [hj] at h; simp at h
      | num n => unfold sql_parse_response at h; rw [hj] at h; simp at h
      | str s0 => unfold sql_parse_response at h; rw [hj] at h; simp at h
      | arr l => unfold sql_parse_response at h; rw [hj] at h; simp at h
  | none =>
      rw [sql_parse_response_none t hj] at h
      cases hx : extract_select (clean_response t).toList with
      | some sql0 =>
          rw [hx] at h
          injection h with h1
          subst h1
          rfl
      | none =>
          rw [hx] at h
          injection h with h1
          subst h1
          simp [JObj.ofL, JObj.lookup] at hsql

/-- `SQLGenerator.generate` downgrades any successfully parsed result
whose SQL fails the safety validator to the failure dict carrying the
validator's reason. -/
theorem sql_generate_downgrades (t : String) (o : JObj) (s : String)
    (h : sql_parse_response t = .ok o) (hsql : o.lookup "sql" = some (.str s))
    (hne : s ≠ "")
    (hblocked : (validate_sql_safety s blocked_sql_keywords).safe = false) :
    sql_generate (.ok t) =
      sql_safety_fail (validate_sql_safety s blocked_sql_keywords).reason := by
  have hsucc := sql_parse_success_of_sql t o s h hsql hne
  have hget : o.getD "sql" .null = .str s := by
    unfold JObj.getD
    rw [hsql]
  have hdec : decide (s ≠ "") = true := decide_eq_true hne
  simp only [sql_generate, sql_generate_core, Bind.bind, Except.bind, h, hsucc,
    hget, truthy]
  simp [hdec, hblocked, Pure.pure, Except.pure]

/-- When the routed store is relational and its generator returns a
result with a falsy `success`, `process_query` stops before execution:
the failure result carries the generator's error, history is untouched,
and no execution-tool call is dispatched. -/
theorem process_query_gen_failure (question : String) (avail : List String)
    (g : JObj) (genM : Option GenFun) (tool : ToolFun) (hist : List HistMsg)
    (hdb : (fast_route question avail).database = "postgresql")
    (hfail : truthy (g.getD "success" .null) = false) :
    process_query question avail (some (fun _ _ => .ok g)) genM tool hist =
      ⟨{ initResult question with
          database := .str "postgresql",
          error := g.getD "error" (.str "Failed to generate query") },
        hist, 0⟩ := by
  simp only [process_query, hdb, hfail]
  simp
  intro hcontra
  rw [hfail] at hcontra
  exact Bool.noConfusion hcontra

/-- C1: whenever the LLM response parses to a success result whose SQL
text fails the denylist validator, `SQLGenerator.generate` downgrades it
to the failure variant, and `process_query` on the relational route
returns a failure result with zero execution-tool calls and an
unchanged history. -/
theorem claim_C1 :
    ∀ (respText question : String) (avail : List String) (genM : Option GenFun)
      (tool : ToolFun) (hist : List HistMsg) (o : JObj) (s : String),
      sql_parse_response respText = .ok o →
      o.lookup "sql" = some (.str s) → s ≠ "" →
      (validate_sql_safety s blocked_sql_keywords).safe = false →
      (fast_route question avail).database = "postgresql" →
      sql_generate (.ok respText) =
        sql_safety_fail (validate_sql_safety s blocked_sql_keywords).reason ∧
      ((process_query question avail
          (some (fun _ _ => .ok (sql_generate (.ok respText)))) genM tool
          hist).result.success = false ∧
        (process_query question avail
          (some (fun _ _ => .ok (sql_generate (.ok respText)))) genM tool
          hist).execCalls = 0 ∧
        (process_query question avail
          (some (fun _ _ => .ok (sql_generate (.ok respText)))) genM tool
          hist).history = hist) := by
  intro respText question avail genM tool hist o s hp hsql hne huns hroute
  have hgen := sql_generate_downgrades respText o s hp hsql hne huns
  have hfail : truthy ((sql_generate (.ok respText)).getD "success" .null) = false := by
    rw [hgen]
    rfl
  have hpq := process_query_gen_failure question avail (sql_generate (.ok respText))
    genM tool hist hroute hfail
  refine ⟨hgen, ?_, ?_, ?_⟩ <;> rw [hpq]
  rfl

/-- Witness for C1: the generator double answers
`{"sql": "DELETE FROM orders"}`; the pipeline rejects it before any
execution dispatch. -/
theorem claim_C1_witness :
    sql_generate (.ok "\x7b\"sql\": \"DELETE FROM orders\"\x7d") =
      sql_safety_fail
        (validate_sql_safety "DELETE FROM orders" blocked_sql_keywords).reason ∧
    ((process_query "show my orders" ["postgresql"]
        (some (fun _ _ => .ok (sql_generate (.ok "\x7b\"sql\": \"DELETE FROM orders\"\x7d"))))
        none (fun _ _ => .ok (JObj.ofL [("success", .bool true)]))
        []).result.success = false ∧
      (process_query "show my orders" ["postgresql"]
        (some (fun _ _ => .ok (sql_generate (.ok "\x7b\"sql\": \"DELETE FROM orders\"\x7d"))))
        none (fun _ _ => .ok (JObj.ofL [("success", .bool true)]))
        []).execCalls = 0 ∧
      (process_query "show my orders" ["postgresql"]
        (some (fun _ _ => .ok (sql_generate (.ok "\x7b\"sql\": \"DELETE FROM orders\"\x7d"))))
        none (fun _ _ => .ok (JObj.ofL [("success", .bool true)]))
        []).history = []) := by
  exact claim_C1 "\x7b\"sql\": \"DELETE FROM orders\"\x7d" "show my orders"
    ["postgresql"] none (fun _ _ => .ok (JObj.ofL [("success", .bool true)])) []
    (.cons "sql" (.str "DELETE FROM orders") (.cons "success" (.bool true) .nil))
    "DELETE FROM orders" rfl rfl (by decide) rfl rfl

/-- C7: `process_query` mutates the conversation history only on full
success, appending exactly the user question and then the synthetic
"Returned N rows" acknowledgment (two entries, in that order); on any
failure — generation or execution — the history is returned unchanged. -/
theorem claim_C7 :
    ∀ (question : String) (avail : List String) (genP genM : Option GenFun)
      (tool : ToolFun) (hist : List HistMsg),
      ((process_query question avail genP genM tool hist).result.success = true →
        ∃ rc : JVal,
          (process_query question avail genP genM tool hist).result.row_count =
            some rc ∧
          (process_query question avail genP genM tool hist).history =
            hist ++ [⟨"user", question⟩,
                     ⟨"assistant", "Returned " ++ pyToStr rc ++ " rows"⟩] ∧
          (process_query question avail genP genM tool hist).history.length =
            hist.length + 2) ∧
      ((process_query question avail genP genM tool hist).result.success = false →
        (process_query question avail genP genM tool hist).history = hist) := by
  intro question avail genP genM tool hist
  simp only [process_query]
  split
  · simp [initResult]
  · split
    · simp [initResult]
    · split
      · simp [initResult]
      · split
        · simp [initResult]
        · refine ⟨fun _ => ⟨_, rfl, rfl, by simp⟩, fun hcontra => ?_⟩
          simp [initResult] at hcontra

/-- Witness for C7: a full-success run appends exactly the two entries,
and a failing generation leaves history unchanged. -/
theorem claim_C7_witness :
    (process_query "show my orders" ["postgresql"]
        (some (fun _ _ => .ok (JObj.ofL
          [("success", .bool true), ("sql", .str "SELECT 1")])))
        none
        (fun _ _ => .ok (JObj.ofL
          [("success", .bool true), ("row_count", .num 2)]))
        [⟨"user", "hi"⟩]).history =
      [⟨"user", "hi"⟩, ⟨"user", "show my orders"⟩,
       ⟨"assistant", "Returned 2 rows"⟩] ∧
    (process_query "show my orders" ["postgresql"]
        (some (fun _ _ => .ok (JObj.ofL [("success", .bool false)])))
        none
        (fun _ _ => .ok (JObj.ofL [("success", .bool true)]))
        [⟨"user", "hi"⟩]).history = [⟨"user", "hi"⟩] := by
  constructor
  · obtain ⟨rc, hrc, hh, -⟩ :=
      (claim_C7 "show my orders" ["postgresql"]
        (some (fun _ _ => .ok (JObj.ofL
          [("success", .bool true), ("sql", .str "SELECT 1")])))
        none
        (fun _ _ => .ok (JObj.ofL
          [("success", .bool true), ("row_count", .num 2)]))
        [⟨"user", "hi"⟩]).1 rfl
    have hrc2 : rc = .num 2 := by
      have : some rc = some (JVal.num 2) := by rw [← hrc]; rfl
      injection this
    rw [hh, hrc2]
    rfl
  · exact (claim_C7 "show my orders" ["postgresql"]
      (some (fun _ _ => .ok (JObj.ofL [("success", .bool false)])))
      none
      (fun _ _ => .ok (JObj.ofL [("success", .bool true)]))
      [⟨"user", "hi"⟩]).2 rfl

/-- C6: every failure class of steps 1-4 is recovered locally into a
structured failure result — `process_query` never raises. An exception
escaping the generator (a), an LLM-call failure caught inside the
generator (b), an unavailable generator on either route (c, d), a
document parse failure (e), an exception escaping the execution tool
(f), and an execution failure dict (g) each yield a `QueryResult` with
`success = false`, a message, and an unchanged history. -/
theorem claim_C6 :
    (∀ (question : String) (avail : List String) (e : PyErr)
        (genM : Option GenFun) (tool : ToolFun) (hist : List HistMsg),
        (fast_route question avail).database = "postgresql" →
        ((process_query question avail (some (fun _ _ => .error e)) genM tool
            hist).result.success = false ∧
          (process_query question avail (some (fun _ _ => .error e)) genM tool
            hist).result.error = .str (pymsg e) ∧
          (process_query question avail (some (fun _ _ => .error e)) genM tool
            hist).history = hist)) ∧
    (∀ e : PyErr, sql_generate (.error e) =
        JObj.ofL [("success", .bool false), ("error", .str (pymsg e)),
                  ("sql", .null)]) ∧
    (∀ (question : String) (avail : List String) (tool : ToolFun)
        (hist : List HistMsg),
        (fast_route question avail).database = "postgresql" →
        ((process_query question avail none none tool hist).result.success = false ∧
          (process_query question avail none none tool hist).result.error =
            .str "PostgreSQL not available" ∧
          (process_query question avail none none tool hist).history = hist)) ∧
    (∀ (question : String) (avail : List String) (tool : ToolFun)
        (hist : List HistMsg),
        (fast_route question avail).database = "mongodb" →
        ((process_query question avail none none tool hist).result.success = false ∧
          (process_query question avail none none tool hist).result.error =
            .str "MongoDB not available" ∧
          (process_query question avail none none tool hist).history = hist)) ∧
    (∀ t : String, json_loads (clean_response t) = none →
        mongo_generate (.ok t) =
          JObj.ofL [("success", .bool false),
                    ("error", .str "Failed to parse response: JSONDecodeError")]) ∧
    (∀ (question : String) (avail : List String) (g : JObj) (e : PyErr)
        (genM : Option GenFun) (hist : List HistMsg),
        (fast_route question avail).database = "postgresql" →
        truthy (g.getD "success" .null) = true →
        truthy (g.getD "sql" .null) = true →
        ((process_query question avail (some (fun _ _ => .ok g)) genM
            (fun _ _ => .error e) hist).result.success = false ∧
          (process_query question avail (some (fun _ _ => .ok g)) genM
            (fun _ _ => .error e) hist).result.error = .str (pymsg e) ∧
          (process_query question avail (some (fun _ _ => .ok g)) genM
            (fun _ _ => .error e) hist).history = hist)) ∧
    (∀ (question : String) (avail : List String) (g ex : JObj)
        (genM : Option GenFun) (hist : List HistMsg),
        (fast_route question avail).database = "postgresql" →
        truthy (g.getD "success" .null) = true →
        truthy (g.getD "sql" .null) = true →
        truthy (ex.getD "success" .null) = false →
        ((process_query question avail (some (fun _ _ => .ok g)) genM
            (fun _ _ => .ok ex) hist).result.success = false ∧
          (process_query question avail (some (fun _ _ => .ok g)) genM
            (fun _ _ => .ok ex) hist).result.error =
            ex.getD "error" (.str "Query execution failed") ∧
          (process_query question avail (some (fun _ _ => .ok g)) genM
            (fun _ _ => .ok ex) hist).history = hist)) := by
  refine ⟨?_, fun e => rfl, ?_, ?_, ?_, ?_, ?_⟩
  · intro question avail e genM tool hist hdb
    refine ⟨?_, ?_, ?_⟩ <;> simp [process_query, hdb, initResult]
  · intro question avail tool hist hdb
    refine ⟨?_, ?_, ?_⟩ <;>
      simp [process_query, hdb, initResult, JObj.ofL, JObj.getD, JObj.lookup, truthy]
  · intro question avail tool hist hdb
    have hne : ("mongodb" : String) ≠ "postgresql" := by decide
    refine ⟨?_, ?_, ?_⟩ <;>
      simp [process_query, hdb, hne, initResult, JObj.ofL, JObj.getD, JObj.lookup,
        truthy]
  · intro t hj
    have hp : mongo_parse_response t =
        .ok (JObj.ofL [("success", .bool false),
                       ("error", .str "Failed to parse response: JSONDecodeError")]) := by
      unfold mongo_parse_response
      rw [hj]
    simp only [mongo_generate, mongo_generate_core, Bind.bind, Except.bind, hp]
    rfl
  · intro question avail g e genM hist hdb htr hsq
    refine ⟨?_, ?_, ?_⟩ <;>
      simp [process_query, execute_query, hdb, htr, hsq, initResult]
  · intro question avail g ex genM hist hdb htr hsq hex
    refine ⟨?_, ?_, ?_⟩ <;>
      simp [process_query, execute_query, hdb, htr, hsq, hex, initResult]

/-- Witness for C6 at concrete inputs for each recovered failure class. -/
theorem claim_C6_witness :
    ((process_query "count customers" ["postgresql"]
        (some (fun _ _ => .error (.other "boom"))) none
        (fun _ _ => .ok JObj.nil) []).result.error = .str "boom" ∧
      (process_query "count customers" ["postgresql"]
        (some (fun _ _ => .error (.other "boom"))) none
        (fun _ _ => .ok JObj.nil) []).result.success = false) ∧
    (process_query "count customers" ["postgresql"] none none
      (fun _ _ => .ok JObj.nil) []).result.error =
        .str "PostgreSQL not available" ∧
    (process_query "show events" ["mongodb"] none none
      (fun _ _ => .ok JObj.nil) []).result.error = .str "MongoDB not available" ∧
    mongo_generate (.ok "not json at all") =
      JObj.ofL [("success", .bool false),
                ("error", .str "Failed to parse response: JSONDecodeError")] ∧
    (process_query "count customers" ["postgresql"]
      (some (fun _ _ => .ok (JObj.ofL
        [("success", .bool true), ("sql", .str "SELECT 1")])))
      none (fun _ _ => .error .typeError) []).result.error =
        .str (pymsg .typeError) ∧
    (process_query "count customers" ["postgresql"]
      (some (fun _ _ => .ok (JObj.ofL
        [("success", .bool true), ("sql", .str "SELECT 1")])))
      none
      (fun _ _ => .ok (JObj.ofL
        [("success", .bool false), ("error", .str "relation does not exist")]))
      []).result.error = .str "relation does not exist" := by
  refine ⟨⟨?_, ?_⟩, ?_, ?_, ?_, ?_, ?_⟩
  · exact (claim_C6.1 "count customers" ["postgresql"] (.other "boom") none
      (fun _ _ => .ok JObj.nil) [] rfl).2.1
  · exact (claim_C6.1 "count customers" ["postgresql"] (.other "boom") none
      (fun _ _ => .ok JObj.nil) [] rfl).1
  · exact (claim_C6.2.2.1 "count customers" ["postgresql"]
      (fun _ _ => .ok JObj.nil) [] rfl).2.1
  · exact (claim_C6.2.2.2.1 "show events" ["mongodb"]
      (fun _ _ => .ok JObj.nil) [] rfl).2.1
  · exact claim_C6.2.2.2.2.1 "not json at all" rfl
  · exact (claim_C6.2.2.2.2.2.1 "count customers" ["postgresql"]
      (JObj.ofL [("success", .bool true), ("sql", .str "SELECT 1")]) .typeError
      none [] rfl rfl rfl).2.1
  · exact (claim_C6.2.2.2.2.2.2 "count customers" ["postgresql"]
      (JObj.ofL [("success", .bool true), ("sql", .str "SELECT 1")])
      (JObj.ofL [("success", .bool false), ("error", .str "relation does not exist")])
      none [] rfl rfl rfl rfl).2.1

/-- Is the value a Python list? -/
def JVal.isList : JVal → Bool
  | .arr _ => true
  | _ => false

/-- The aggregate-mode LLM response of C10: it carries both a benign
`filter` field and a pipeline whose `$match` stage uses `$where`. -/
def c10_resp : String :=
  "\x7b\"query_type\": \"aggregate\", \"collection\": \"c\", \"filter\": \x7b\x7d, \"pipeline\": [\x7b\"$match\": \x7b\"$where\": \"this.x\"\x7d\x7d]\x7d"

/-- The unsafe `$match` stage carried by `c10_resp`. -/
def c10_stage : JVal :=
  .obj (.cons "$match" (.obj (.cons "$where" (.str "this.x") .nil)) .nil)

/-- C10 (implicit): because the post-parse check inspects
`result.get("filter", result.get("pipeline", {}))`, the presence of a
`filter` key means only the filter is validated: the generator returns
such a response as a success without looking at the pipeline, and only
the execution-dispatch-side `_is_safe_query` check can still reject the
`$where` stage. -/
theorem claim_C10 :
    (∀ (t : String) (o : JObj) (f : JVal),
        mongo_parse_response t = .ok o →
        o.lookup "filter" = some f →
        f.isList = false →
        validate_mongo_safety f = .ok ⟨true, none⟩ →
        mongo_generate (.ok t) = o) ∧
    (mongo_generate (.ok c10_resp)).lookup "success" = some (.bool true) ∧
    (mongo_generate (.ok c10_resp)).lookup "pipeline" =
      some (.arr (.cons c10_stage .nil)) ∧
    is_safe_query c10_stage = .ok false ∧
    handle_aggregate_stage_check (.cons c10_stage .nil) = .ok false := by
  refine ⟨?_, rfl, rfl, rfl, rfl⟩
  intro t o f hp hf hnl hsafe
  simp only [mongo_generate, mongo_generate_core, Bind.bind, Except.bind, hp, hf]
  by_cases hs : truthy (o.getD "success" .null) = true
  · rw [if_pos hs]
    cases f with
    | arr l => exact absurd hnl (by simp [JVal.isList])
    | null => simp [hsafe, Bind.bind, Except.bind, Pure.pure, Except.pure]
    | bool b => simp [hsafe, Bind.bind, Except.bind, Pure.pure, Except.pure]
    | num n => simp [hsafe, Bind.bind, Except.bind, Pure.pure, Except.pure]
    | str s => simp [hsafe, Bind.bind, Except.bind, Pure.pure, Except.pure]
    | obj fo => simp [hsafe, Bind.bind, Except.bind, Pure.pure, Except.pure]
  · rw [if_neg hs]
    rfl

/-- Witness for C10: the universally quantified part applied to
`c10_resp`, whose parsed object carries `filter = {}` — the whole parsed
object, unsafe pipeline included, is returned as a success. -/
theorem claim_C10_witness :
    mongo_generate (.ok c10_resp) =
      .cons "query_type" (.str "aggregate")
        (.cons "collection" (.str "c")
          (.cons "filter" (.obj .nil)
            (.cons "pipeline" (.arr (.cons c10_stage .nil))
              (.cons "success" (.bool true) .nil)))) := by
  exact claim_C10.1 c10_resp
    (.cons "query_type" (.str "aggregate")
      (.cons "collection" (.str "c")
        (.cons "filter" (.obj .nil)
          (.cons "pipeline" (.arr (.cons c10_stage .nil))
            (.cons "success" (.bool true) .nil)))))
    (.obj .nil) rfl rfl rfl rfl
